import Mathlib

/-!
# Verification of the sync-async-microservice-patterns repository

Shallow embedding of the asynchronous messaging core of the repository:
the consumer framework (`src/asynchronous/common/base_consumer.py`), the
broker client (`src/asynchronous/common/rabbitmq_client.py`), the saga
participants (order, inventory, payment services) and the event catalog
(`src/common/event_schemas.py`), together with theorems settling the
specification claims about them.
-/

namespace MicroPatterns

/-! ## Consumer framework (`base_consumer.py`)

`BaseConsumer._handle_message(message, handler)` is embedded as a function
from the delivered message and the handler's outcome to the ordered list of
externally visible effects it performs (acknowledgements, rejects, raised
exceptions).  The Python local variable `body` is only assigned when
`message.body.decode()` succeeds; the embedding tracks this with an
`Option String` passed to the `except Exception` clause, mirroring that the
dead-letter log line `body[:100]` raises `NameError` when `body` was never
bound. -/

/-- Outcome of awaiting the user handler `await handler(body, message)`:
it returns normally, raises an ordinary `Exception`, or raises
`asyncio.CancelledError` (cooperative cancellation). -/
inductive HandlerOutcome where
  | success
  | failure
  | cancelled
deriving DecidableEq, Repr

/-- Externally visible effects of `_handle_message`, in program order.
`raiseNameError` is the `NameError` raised by evaluating the unbound local
`body` in the dead-letter log line; `raiseCancelled` is the re-raised
`asyncio.CancelledError`; `raiseExc` is any other exception escaping the
method. -/
inductive Effect where
  | ack
  | reject (requeue : Bool)
  | raiseCancelled
  | raiseNameError
deriving DecidableEq, Repr

/-- A delivered broker message: `decodedBody` is the result of
`message.body.decode()` (`none` when the raw bytes are not valid UTF-8 and
the call raises `UnicodeDecodeError`), and `headers` the AMQP header table
restricted to integer-valued headers. -/
structure IncomingMessage where
  decodedBody : Option String
  headers : List (String × Int)
deriving DecidableEq, Repr

/-- `BaseConsumer._get_retry_count`: read the `x-retry-count` header,
absent meaning `0`. -/
def get_retry_count (m : IncomingMessage) : Int :=
  match m.headers.lookup "x-retry-count" with
  | some n => n
  | none => 0

/-- The `except Exception` clause of `_handle_message`: log the error,
read the retry count, and either reject-with-requeue (retry) or
reject-without-requeue (dead-letter).  `bodyVar` is the value of the local
variable `body` (`none` = never assigned); the dead-letter log line
`f"... {body[:100]}"` raises `NameError` when it is unbound. -/
def except_clause (max_retries : Int) (m : IncomingMessage)
    (bodyVar : Option String) : List Effect :=
  let retry_count := get_retry_count m
  if retry_count < max_retries then
    [.reject true]
  else
    match bodyVar with
    | some _ => [.reject false]
    | none => [.reject false, .raiseNameError]

/-- `BaseConsumer._handle_message`: decode the body, invoke the handler,
ack on success; on `asyncio.CancelledError` reject-with-requeue and
re-raise; on any other exception run the retry/dead-letter clause.
The handler is a function from the decoded body to its outcome. -/
def handle_message (max_retries : Int) (m : IncomingMessage)
    (handler : String → HandlerOutcome) : List Effect :=
  match m.decodedBody with
  | none =>
      -- `body = message.body.decode()` raised; `body` is unbound.
      except_clause max_retries m none
  | some body =>
      match handler body with
      | .success => [.ack]
      | .cancelled => [.reject true, .raiseCancelled]
      | .failure => except_clause max_retries m (some body)

/-- One item arriving at a consumer's run loop: either a delivery from the
queue or the cooperative cancellation of the consumer task. -/
inductive LoopInput where
  | msg (m : IncomingMessage)
  | cancel
deriving Repr

/-- The consumer run loop started by `BaseConsumer.start`: it processes
deliveries in order; a cancellation between deliveries stops the loop
(`except asyncio.CancelledError` in `start` sets `_running = False`), and
an `asyncio.CancelledError` re-raised out of `_handle_message` also ends
the loop, so no later delivery is processed. -/
def consumer_loop (max_retries : Int) (handler : String → HandlerOutcome) :
    List LoopInput → List Effect
  | [] => []
  | .cancel :: _ => []
  | .msg m :: rest =>
      let t := handle_message max_retries m handler
      if Effect.raiseCancelled ∈ t then t
      else t ++ consumer_loop max_retries handler rest

/-! ### Broker redelivery loop for the retry bound

`message.reject(requeue=True)` puts the message back on the queue.
RabbitMQ redelivers it with its headers unchanged (a basic reject does not
modify the header table, and nothing in the repository republishes the
message with an incremented `x-retry-count`), so the redelivered copy is
the same `IncomingMessage`. -/

/-- A handler that always raises, as in the retry-bound property. -/
def always_failing_handler : String → HandlerOutcome := fun _ => .failure

/-- State of one message's life at the broker: still queued for
(re)delivery, acknowledged, or dead-lettered/discarded. -/
structure RetryRun where
  queued : Bool
  acked : Bool
  deadLettered : Bool
  msg : IncomingMessage
deriving Repr

/-- One broker delivery attempt: deliver the queued message to
`_handle_message`; an ack removes it, a reject-with-requeue puts the same
message (headers unchanged) back on the queue, a reject-without-requeue
dead-letters it. -/
def broker_step (max_retries : Int) (handler : String → HandlerOutcome)
    (s : RetryRun) : RetryRun :=
  if s.queued then
    let t := handle_message max_retries s.msg handler
    if Effect.ack ∈ t then { s with queued := false, acked := true }
    else if Effect.reject true ∈ t then s
    else { s with queued := false, deadLettered := true }
  else s

/-- `n` broker delivery attempts starting from a freshly published
message `m`. -/
def broker_run (max_retries : Int) (handler : String → HandlerOutcome)
    (m : IncomingMessage) : Nat → RetryRun
  | 0 => { queued := true, acked := false, deadLettered := false, msg := m }
  | n + 1 => broker_step max_retries handler (broker_run max_retries handler m n)

/-! ## Event catalog (`event_schemas.py`): data model

Events are Pydantic models.  Integer fields are embedded as `Int`, string
fields as `String`, `float` fields as exact rationals (`ℚ`; the
floating-point representation itself is outside the embedding), `datetime`
fields as a structured UTC timestamp, `Optional[str]` as `Option String`,
and the free-form `dict` field of `GenerateReportJobEvent` as an
association list whose keys are Python dict keys (ints or strings) and
whose values are JSON-representable values. -/

/-- A naive UTC timestamp as produced by `datetime.utcnow()`:
calendar fields plus microseconds. -/
structure Datetime where
  year : Nat
  month : Nat
  day : Nat
  hour : Nat
  minute : Nat
  second : Nat
  microsecond : Nat
deriving DecidableEq, Repr

/-- A Python dict key as allowed in a JSON-serializable `dict` field:
an int or a string. -/
inductive PyKey where
  | kint (n : Int)
  | kstr (s : String)
deriving DecidableEq, Repr

/-- JSON values.  Numbers are exact rationals (Python serializes ints and
floats as JSON numbers). -/
inductive Json where
  | null
  | jbool (b : Bool)
  | num (q : ℚ)
  | str (s : String)
  | arr (elts : List Json)
  | obj (fields : List (String × Json))

/-- `UserRegisteredEvent(user_id, email, timestamp)`. -/
structure UserRegisteredEvent where
  user_id : Int
  email : String
  timestamp : Datetime
deriving DecidableEq, Repr

/-- `PaymentInitiatedEvent(payment_id, amount, currency, timestamp)`. -/
structure PaymentInitiatedEvent where
  payment_id : String
  amount : ℚ
  currency : String
  timestamp : Datetime
deriving DecidableEq, Repr

/-- `PaymentCompletedEvent(payment_id, transaction_id, status, timestamp)`. -/
structure PaymentCompletedEvent where
  payment_id : String
  transaction_id : String
  status : String
  timestamp : Datetime
deriving DecidableEq, Repr

/-- `PaymentFailedEvent(payment_id, order_id, reason, timestamp)`;
`payment_id` is `Optional[str] = None`. -/
structure PaymentFailedEvent where
  payment_id : Option String
  order_id : Int
  reason : String
  timestamp : Datetime
deriving DecidableEq, Repr

/-- `ProductUpdatedEvent(product_id, name, stock, timestamp)`. -/
structure ProductUpdatedEvent where
  product_id : Int
  name : String
  stock : Int
  timestamp : Datetime
deriving DecidableEq, Repr

/-- `GenerateReportJobEvent(job_id, report_type, parameters, timestamp)`;
`parameters` is a free-form `dict` (default `{}`). -/
structure GenerateReportJobEvent where
  job_id : String
  report_type : String
  parameters : List (PyKey × Json)
  timestamp : Datetime

/-- `ReportGeneratedEvent(job_id, report_hash, duration_seconds, timestamp)`. -/
structure ReportGeneratedEvent where
  job_id : String
  report_hash : String
  duration_seconds : ℚ
  timestamp : Datetime
deriving DecidableEq, Repr

/-- `OrderCreatedEvent(order_id, product_id, quantity, timestamp)`. -/
structure OrderCreatedEvent where
  order_id : Int
  product_id : Int
  quantity : Int
  timestamp : Datetime
deriving DecidableEq, Repr

/-- `StockReservedEvent(order_id, product_id, quantity, reserved_at)`. -/
structure StockReservedEvent where
  order_id : Int
  product_id : Int
  quantity : Int
  reserved_at : Datetime
deriving DecidableEq, Repr

/-- `StockReleasedEvent(order_id, product_id, quantity, reason, released_at)`. -/
structure StockReleasedEvent where
  order_id : Int
  product_id : Int
  quantity : Int
  reason : String
  released_at : Datetime
deriving DecidableEq, Repr

/-- `ClickTrackedEvent(user_id, page, session_id, timestamp)`;
`session_id` is `Optional[str] = None`. -/
structure ClickTrackedEvent where
  user_id : Int
  page : String
  session_id : Option String
  timestamp : Datetime
deriving DecidableEq, Repr

/-- `AnalyticsProcessedEvent(batch_id, events_count, processed_at)`. -/
structure AnalyticsProcessedEvent where
  batch_id : String
  events_count : Int
  processed_at : Datetime
deriving DecidableEq, Repr

/-! ### Serialization (`event_to_json` / `json_to_event`)

`event_to_json` is Pydantic's `model_dump_json`: an object with one member
per field in declaration order; ints and floats as JSON numbers, strings
as JSON strings, `None` as `null`, datetimes as ISO-8601 text
(`YYYY-MM-DDTHH:MM:SS` with a 6-digit `.ffffff` fraction when the
microsecond is nonzero), dicts as JSON objects whose keys are the `str()`
of the Python keys.  `json_to_event` is `model_validate_json`: Pydantic v2
default ("lax") validation — a missing field without default or an
unacceptable value fails with a `ValidationError` naming the field, but
numeric strings are coerced to int/float fields.  Fields with a default
(`timestamp`, the optional ids, `parameters`) use the default when the
member is absent. -/

/-- Decimal digit character for `d` (callers pass `d < 10`; larger values
clamp to `'9'` like the digit of `d % 10` never does in practice). -/
def digit_char (d : Nat) : Char :=
  Char.ofNat (48 + min d 9)

/-- Value of a decimal digit character (`'0'`–`'9'`), `none` otherwise. -/
def digit_val (c : Char) : Option Nat :=
  if 48 ≤ c.toNat ∧ c.toNat ≤ 57 then some (c.toNat - 48) else none

/-- `n % 10^k` printed as exactly `k` decimal digits, zero-padded
(`"%04d"`-style formatting). -/
def padDigits : Nat → Nat → List Char
  | 0, _ => []
  | k + 1, n => padDigits k (n / 10) ++ [digit_char (n % 10)]

/-- Fold decimal digits onto an accumulator; `none` on a non-digit. -/
def readDigitsAux (acc : Nat) : List Char → Option Nat
  | [] => some acc
  | c :: cs =>
    match digit_val c with
    | some d => readDigitsAux (acc * 10 + d) cs
    | none => none

/-- Read exactly `k` leading digits; return the value and the rest. -/
def readFixed (k : Nat) (cs : List Char) : Option (Nat × List Char) :=
  if (cs.take k).length = k then
    match readDigitsAux 0 (cs.take k) with
    | some n => some (n, cs.drop k)
    | none => none
  else none

/-- Consume one expected character. -/
def expectChar (c : Char) : List Char → Option (List Char)
  | [] => none
  | c' :: cs => if c' = c then some cs else none

/-- ISO-8601 rendering of a naive datetime, as Pydantic serializes it:
fraction omitted when the microsecond is zero, else exactly six digits. -/
def isoChars (t : Datetime) : List Char :=
  padDigits 4 t.year ++ ('-' :: (padDigits 2 t.month ++ ('-' :: (padDigits 2 t.day ++
  ('T' :: (padDigits 2 t.hour ++ (':' :: (padDigits 2 t.minute ++
  (':' :: (padDigits 2 t.second ++
  (if t.microsecond = 0 then [] else '.' :: padDigits 6 t.microsecond)))))))))))

/-- Parse the ISO-8601 form produced by `isoChars` (fraction optional). -/
def parseIso (cs : List Char) : Option Datetime := do
  let (y, cs) ← readFixed 4 cs
  let cs ← expectChar '-' cs
  let (mo, cs) ← readFixed 2 cs
  let cs ← expectChar '-' cs
  let (d, cs) ← readFixed 2 cs
  let cs ← expectChar 'T' cs
  let (h, cs) ← readFixed 2 cs
  let cs ← expectChar ':' cs
  let (mi, cs) ← readFixed 2 cs
  let cs ← expectChar ':' cs
  let (s, cs) ← readFixed 2 cs
  match cs with
  | [] => some ⟨y, mo, d, h, mi, s, 0⟩
  | '.' :: cs2 =>
    match readFixed 6 cs2 with
    | some (us, []) => some ⟨y, mo, d, h, mi, s, us⟩
    | _ => none
  | _ => none

/-- ISO string of a datetime. -/
def iso_of_datetime (t : Datetime) : String := ⟨isoChars t⟩

/-- Datetime parsed back from an ISO string. -/
def datetime_of_iso (s : String) : Option Datetime := parseIso s.data

/-- Fields of a `Datetime` are in the ranges the textual form can carry
(every value `datetime.utcnow()` can produce satisfies this). -/
def Datetime.wf (t : Datetime) : Prop :=
  t.year < 10 ^ 4 ∧ t.month < 10 ^ 2 ∧ t.day < 10 ^ 2 ∧ t.hour < 10 ^ 2 ∧
  t.minute < 10 ^ 2 ∧ t.second < 10 ^ 2 ∧ t.microsecond < 10 ^ 6

instance (t : Datetime) : Decidable t.wf := by
  unfold Datetime.wf
  infer_instance

/-- Kind of a validation failure on one field. -/
inductive ErrKind where
  | missing
  | wrongType
deriving DecidableEq, Repr

/-- A `pydantic.ValidationError` reduced to what the claims are about:
the offending field's name and whether it was missing or ill-typed. -/
structure ValErr where
  field : String
  kind : ErrKind
deriving DecidableEq, Repr

/-- All characters are digits and there is at least one: the integer-string
grammar that Pydantic's lax mode coerces into `int` fields. -/
def readAllDigits (cs : List Char) : Option Nat :=
  match cs with
  | [] => none
  | _ => readDigitsAux 0 cs

/-- Lax `str → int` coercion: an optional sign followed by digits. -/
def str_to_int (s : String) : Option Int :=
  match s.data with
  | '-' :: cs => (readAllDigits cs).map (fun n => -(n : Int))
  | '+' :: cs => (readAllDigits cs).map (fun n => (n : Int))
  | cs => (readAllDigits cs).map (fun n => (n : Int))

/-- Decimal-literal core of the lax `str → float` grammar: digits with an
optional fractional part (exponents and the inf/nan spellings are outside
this model). -/
def readDecimal (cs : List Char) : Option ℚ :=
  let ip := cs.takeWhile (fun c => (digit_val c).isSome)
  let rest := cs.drop ip.length
  match readAllDigits ip, rest with
  | some n, [] => some (n : ℚ)
  | some n, '.' :: fp =>
    if fp.all (fun c => (digit_val c).isSome) then
      match readAllDigits fp with
      | some f => some ((n : ℚ) + (f : ℚ) / ((10 : ℚ) ^ fp.length))
      | none => none
    else none
  | _, _ => none

/-- Lax `str → float` coercion with an optional sign. -/
def str_to_rat (s : String) : Option ℚ :=
  match s.data with
  | '-' :: cs => (readDecimal cs).map Neg.neg
  | '+' :: cs => readDecimal cs
  | cs => readDecimal cs

/-- Validate a required `int` field: a JSON number with an integral value,
or (lax coercion) an integer string. -/
def reqIntField (fields : List (String × Json)) (k : String) :
    Except ValErr Int :=
  match fields.lookup k with
  | none => .error ⟨k, .missing⟩
  | some (.num q) => if q.den = 1 then .ok q.num else .error ⟨k, .wrongType⟩
  | some (.str s) =>
    match str_to_int s with
    | some n => .ok n
    | none => .error ⟨k, .wrongType⟩
  | some _ => .error ⟨k, .wrongType⟩

/-- Validate a required `str` field (numbers are not coerced to strings). -/
def reqStrField (fields : List (String × Json)) (k : String) :
    Except ValErr String :=
  match fields.lookup k with
  | none => .error ⟨k, .missing⟩
  | some (.str s) => .ok s
  | some _ => .error ⟨k, .wrongType⟩

/-- Validate a required `float` field: any JSON number, or (lax coercion)
a decimal string. -/
def reqNumField (fields : List (String × Json)) (k : String) :
    Except ValErr ℚ :=
  match fields.lookup k with
  | none => .error ⟨k, .missing⟩
  | some (.num q) => .ok q
  | some (.str s) =>
    match str_to_rat s with
    | some q => .ok q
    | none => .error ⟨k, .wrongType⟩
  | some _ => .error ⟨k, .wrongType⟩

/-- Validate an `Optional[str] = None` field: absent or `null` gives
`None`. -/
def optStrField (fields : List (String × Json)) (k : String) :
    Except ValErr (Option String) :=
  match fields.lookup k with
  | none => .ok none
  | some .null => .ok none
  | some (.str s) => .ok (some s)
  | some _ => .error ⟨k, .wrongType⟩

/-- The import-time value of `datetime.utcnow()` used as the shared
default of every `timestamp`-like field (the Python default is evaluated
once when `event_schemas.py` is imported; its exact value is immaterial,
only that it is one fixed datetime). -/
def import_time_utcnow : Datetime := ⟨2025, 1, 1, 0, 0, 0, 0⟩

/-- Validate a `datetime` field with the import-time default: absent uses
the default, an ISO string parses (numeric-epoch inputs are outside this
model). -/
def datetimeField (fields : List (String × Json)) (k : String) :
    Except ValErr Datetime :=
  match fields.lookup k with
  | none => .ok import_time_utcnow
  | some (.str s) =>
    match datetime_of_iso s with
    | some t => .ok t
    | none => .error ⟨k, .wrongType⟩
  | some _ => .error ⟨k, .wrongType⟩

/-- Validate an `EmailStr` field: a string accepted by the email
validator (modelled as one nonempty local part, one `@`, one nonempty
domain part). -/
def validEmail (s : String) : Bool :=
  match s.splitOn "@" with
  | [lp, dp] => !lp.isEmpty && !dp.isEmpty
  | _ => false

/-- Validate a required `EmailStr` field. -/
def emailField (fields : List (String × Json)) (k : String) :
    Except ValErr String :=
  match fields.lookup k with
  | none => .error ⟨k, .missing⟩
  | some (.str s) => if validEmail s then .ok s else .error ⟨k, .wrongType⟩
  | some _ => .error ⟨k, .wrongType⟩

/-- String form of a Python dict key (`str()` applied by JSON
serialization; JSON object keys are always strings). -/
def pyKeyStr (k : PyKey) : String :=
  match k with
  | .kstr s => s
  | .kint n => toString n

/-- Validate a `dict = {}` field: absent gives the default `{}`, a JSON
object gives back its members under string keys. -/
def dictField (fields : List (String × Json)) (k : String) :
    Except ValErr (List (PyKey × Json)) :=
  match fields.lookup k with
  | none => .ok []
  | some (.obj kvs) => .ok (kvs.map (fun p => (PyKey.kstr p.1, p.2)))
  | some _ => .error ⟨k, .wrongType⟩

/-- `model_dump_json` for `UserRegisteredEvent`. -/
def UserRegisteredEvent.to_json (e : UserRegisteredEvent) : Json :=
  .obj [("user_id", .num (e.user_id : ℚ)),
        ("email", .str e.email),
        ("timestamp", .str (iso_of_datetime e.timestamp))]

/-- `model_validate_json` for `UserRegisteredEvent`. -/
def UserRegisteredEvent.from_json (j : Json) :
    Except ValErr UserRegisteredEvent :=
  match j with
  | .obj fields => do
    let uid ← reqIntField fields "user_id"
    let em ← emailField fields "email"
    let ts ← datetimeField fields "timestamp"
    .ok ⟨uid, em, ts⟩
  | _ => .error ⟨"__root__", .wrongType⟩

/-- `model_dump_json` for `PaymentInitiatedEvent`. -/
def PaymentInitiatedEvent.to_json (e : PaymentInitiatedEvent) : Json :=
  .obj [("payment_id", .str e.payment_id),
        ("amount", .num e.amount),
        ("currency", .str e.currency),
        ("timestamp", .str (iso_of_datetime e.timestamp))]

/-- `model_validate_json` for `PaymentInitiatedEvent`. -/
def PaymentInitiatedEvent.from_json (j : Json) :
    Except ValErr PaymentInitiatedEvent :=
  match j with
  | .obj fields => do
    let pid ← reqStrField fields "payment_id"
    let am ← reqNumField fields "amount"
    let cur ← match fields.lookup "currency" with
      | none => .ok "USD"
      | some (.str s) => .ok s
      | some _ => .error (⟨"currency", .wrongType⟩ : ValErr)
    let ts ← datetimeField fields "timestamp"
    .ok ⟨pid, am, cur, ts⟩
  | _ => .error ⟨"__root__", .wrongType⟩

/-- `model_dump_json` for `PaymentCompletedEvent`. -/
def PaymentCompletedEvent.to_json (e : PaymentCompletedEvent) : Json :=
  .obj [("payment_id", .str e.payment_id),
        ("transaction_id", .str e.transaction_id),
        ("status", .str e.status),
        ("timestamp", .str (iso_of_datetime e.timestamp))]

/-- `model_validate_json` for `PaymentCompletedEvent`. -/
def PaymentCompletedEvent.from_json (j : Json) :
    Except ValErr PaymentCompletedEvent :=
  match j with
  | .obj fields => do
    let pid ← reqStrField fields "payment_id"
    let tx ← reqStrField fields "transaction_id"
    let st ← reqStrField fields "status"
    let ts ← datetimeField fields "timestamp"
    .ok ⟨pid, tx, st, ts⟩
  | _ => .error ⟨"__root__", .wrongType⟩

/-- `model_dump_json` for `PaymentFailedEvent`
(`payment_id = None` serializes as `null`). -/
def PaymentFailedEvent.to_json (e : PaymentFailedEvent) : Json :=
  .obj [("payment_id", match e.payment_id with
          | none => .null
          | some s => .str s),
        ("order_id", .num (e.order_id : ℚ)),
        ("reason", .str e.reason),
        ("timestamp", .str (iso_of_datetime e.timestamp))]

/-- `model_validate_json` for `PaymentFailedEvent`. -/
def PaymentFailedEvent.from_json (j : Json) :
    Except ValErr PaymentFailedEvent :=
  match j with
  | .obj fields => do
    let pid ← optStrField fields "payment_id"
    let oid ← reqIntField fields "order_id"
    let rsn ← reqStrField fields "reason"
    let ts ← datetimeField fields "timestamp"
    .ok ⟨pid, oid, rsn, ts⟩
  | _ => .error ⟨"__root__", .wrongType⟩

/-- `model_dump_json` for `ProductUpdatedEvent`. -/
def ProductUpdatedEvent.to_json (e : ProductUpdatedEvent) : Json :=
  .obj [("product_id", .num (e.product_id : ℚ)),
        ("name", .str e.name),
        ("stock", .num (e.stock : ℚ)),
        ("timestamp", .str (iso_of_datetime e.timestamp))]

/-- `model_validate_json` for `ProductUpdatedEvent`. -/
def ProductUpdatedEvent.from_json (j : Json) :
    Except ValErr ProductUpdatedEvent :=
  match j with
  | .obj fields => do
    let pid ← reqIntField fields "product_id"
    let nm ← reqStrField fields "name"
    let st ← reqIntField fields "stock"
    let ts ← datetimeField fields "timestamp"
    .ok ⟨pid, nm, st, ts⟩
  | _ => .error ⟨"__root__", .wrongType⟩

/-- `model_dump_json` for `GenerateReportJobEvent`: the `parameters` dict
serializes as a JSON object whose keys are the `str()` of the Python
keys. -/
def GenerateReportJobEvent.to_json (e : GenerateReportJobEvent) : Json :=
  .obj [("job_id", .str e.job_id),
        ("report_type", .str e.report_type),
        ("parameters", .obj (e.parameters.map (fun p => (pyKeyStr p.1, p.2)))),
        ("timestamp", .str (iso_of_datetime e.timestamp))]

/-- `model_validate_json` for `GenerateReportJobEvent`. -/
def GenerateReportJobEvent.from_json (j : Json) :
    Except ValErr GenerateReportJobEvent :=
  match j with
  | .obj fields => do
    let jid ← reqStrField fields "job_id"
    let rt ← reqStrField fields "report_type"
    let ps ← dictField fields "parameters"
    let ts ← datetimeField fields "timestamp"
    .ok ⟨jid, rt, ps, ts⟩
  | _ => .error ⟨"__root__", .wrongType⟩

/-- `model_dump_json` for `ReportGeneratedEvent`. -/
def ReportGeneratedEvent.to_json (e : ReportGeneratedEvent) : Json :=
  .obj [("job_id", .str e.job_id),
        ("report_hash", .str e.report_hash),
        ("duration_seconds", .num e.duration_seconds),
        ("timestamp", .str (iso_of_datetime e.timestamp))]

/-- `model_validate_json` for `ReportGeneratedEvent`. -/
def ReportGeneratedEvent.from_json (j : Json) :
    Except ValErr ReportGeneratedEvent :=
  match j with
  | .obj fields => do
    let jid ← reqStrField fields "job_id"
    let rh ← reqStrField fields "report_hash"
    let du ← reqNumField fields "duration_seconds"
    let ts ← datetimeField fields "timestamp"
    .ok ⟨jid, rh, du, ts⟩
  | _ => .error ⟨"__root__", .wrongType⟩

/-- `model_dump_json` for `OrderCreatedEvent`. -/
def OrderCreatedEvent.to_json (e : OrderCreatedEvent) : Json :=
  .obj [("order_id", .num (e.order_id : ℚ)),
        ("product_id", .num (e.product_id : ℚ)),
        ("quantity", .num (e.quantity : ℚ)),
        ("timestamp", .str (iso_of_datetime e.timestamp))]

/-- `model_validate_json` for `OrderCreatedEvent`. -/
def OrderCreatedEvent.from_json (j : Json) :
    Except ValErr OrderCreatedEvent :=
  match j with
  | .obj fields => do
    let oid ← reqIntField fields "order_id"
    let pid ← reqIntField fields "product_id"
    let qty ← reqIntField fields "quantity"
    let ts ← datetimeField fields "timestamp"
    .ok ⟨oid, pid, qty, ts⟩
  | _ => .error ⟨"__root__", .wrongType⟩

/-- `model_dump_json` for `StockReservedEvent`. -/
def StockReservedEvent.to_json (e : StockReservedEvent) : Json :=
  .obj [("order_id", .num (e.order_id : ℚ)),
        ("product_id", .num (e.product_id : ℚ)),
        ("quantity", .num (e.quantity : ℚ)),
        ("reserved_at", .str (iso_of_datetime e.reserved_at))]

/-- `model_validate_json` for `StockReservedEvent`. -/
def StockReservedEvent.from_json (j : Json) :
    Except ValErr StockReservedEvent :=
  match j with
  | .obj fields => do
    let oid ← reqIntField fields "order_id"
    let pid ← reqIntField fields "product_id"
    let qty ← reqIntField fields "quantity"
    let ts ← datetimeField fields "reserved_at"
    .ok ⟨oid, pid, qty, ts⟩
  | _ => .error ⟨"__root__", .wrongType⟩

/-- `model_dump_json` for `StockReleasedEvent`. -/
def StockReleasedEvent.to_json (e : StockReleasedEvent) : Json :=
  .obj [("order_id", .num (e.order_id : ℚ)),
        ("product_id", .num (e.product_id : ℚ)),
        ("quantity", .num (e.quantity : ℚ)),
        ("reason", .str e.reason),
        ("released_at", .str (iso_of_datetime e.released_at))]

/-- `model_validate_json` for `StockReleasedEvent`. -/
def StockReleasedEvent.from_json (j : Json) :
    Except ValErr StockReleasedEvent :=
  match j with
  | .obj fields => do
    let oid ← reqIntField fields "order_id"
    let pid ← reqIntField fields "product_id"
    let qty ← reqIntField fields "quantity"
    let rsn ← reqStrField fields "reason"
    let ts ← datetimeField fields "released_at"
    .ok ⟨oid, pid, qty, rsn, ts⟩
  | _ => .error ⟨"__root__", .wrongType⟩

/-- `model_dump_json` for `ClickTrackedEvent`. -/
def ClickTrackedEvent.to_json (e : ClickTrackedEvent) : Json :=
  .obj [("user_id", .num (e.user_id : ℚ)),
        ("page", .str e.page),
        ("session_id", match e.session_id with
          | none => .null
          | some s => .str s),
        ("timestamp", .str (iso_of_datetime e.timestamp))]

/-- `model_validate_json` for `ClickTrackedEvent`. -/
def ClickTrackedEvent.from_json (j : Json) :
    Except ValErr ClickTrackedEvent :=
  match j with
  | .obj fields => do
    let uid ← reqIntField fields "user_id"
    let pg ← reqStrField fields "page"
    let sid ← optStrField fields "session_id"
    let ts ← datetimeField fields "timestamp"
    .ok ⟨uid, pg, sid, ts⟩
  | _ => .error ⟨"__root__", .wrongType⟩

/-- `model_dump_json` for `AnalyticsProcessedEvent`. -/
def AnalyticsProcessedEvent.to_json (e : AnalyticsProcessedEvent) : Json :=
  .obj [("batch_id", .str e.batch_id),
        ("events_count", .num (e.events_count : ℚ)),
        ("processed_at", .str (iso_of_datetime e.processed_at))]

/-- `model_validate_json` for `AnalyticsProcessedEvent`. -/
def AnalyticsProcessedEvent.from_json (j : Json) :
    Except ValErr AnalyticsProcessedEvent :=
  match j with
  | .obj fields => do
    let bid ← reqStrField fields "batch_id"
    let ec ← reqIntField fields "events_count"
    let ts ← datetimeField fields "processed_at"
    .ok ⟨bid, ec, ts⟩
  | _ => .error ⟨"__root__", .wrongType⟩

/-! ## Saga participants

Embeddings of the database effects and published events of the order,
inventory and payment services (`src/asynchronous/{order,inventory,payment}service/main.py`).
Database tables are association lists; `now` stands for `datetime.utcnow()`
at the time of the call. -/

/-- Order lifecycle states; the `status` column of the `orders` table is
documented in the source as `pending, failed, completed`. -/
inductive OrderStatus where
  | pending
  | failed
  | completed
deriving DecidableEq, Repr

/-- A row of the order service's `orders` table. -/
structure OrderRow where
  id : Int
  product_id : Int
  quantity : Int
  status : OrderStatus
deriving DecidableEq, Repr

/-- Reserved count read from the `inventory_items` table
(rows `(product_id, reserved)`); a missing row reads as `0`, as in the
service's `GET /inventory/{product_id}` endpoint. -/
def reserved_of (db : List (Int × Int)) (p : Int) : Int :=
  match db.lookup p with
  | some r => r
  | none => 0

/-- `InventoryService.process_order_created`: fetch the row for the
product (creating it with `reserved = 0` if absent), add the order's
quantity to `reserved`, commit, and build the `StockReservedEvent` to
publish to `stock_reserved_queue`. -/
def inventory_process_order_created (db : List (Int × Int))
    (e : OrderCreatedEvent) (now : Datetime) :
    List (Int × Int) × StockReservedEvent :=
  let db' := match db.lookup e.product_id with
    | some r =>
        db.map (fun row => if row.1 = e.product_id then (row.1, r + e.quantity) else row)
    | none => db ++ [(e.product_id, e.quantity)]
  (db', { order_id := e.order_id, product_id := e.product_id,
          quantity := e.quantity, reserved_at := now })

/-- `InventoryService.process_payment_failed` (saga compensation): the
handler only logs; it performs no database write, and publishes a
`StockReleasedEvent` with placeholder `product_id = 1` and
`quantity = 1` to `stock_released_queue`. -/
def inventory_process_payment_failed (db : List (Int × Int))
    (e : PaymentFailedEvent) (now : Datetime) :
    List (Int × Int) × StockReleasedEvent :=
  (db, { order_id := e.order_id, product_id := 1, quantity := 1,
         reason := "payment_failed", released_at := now })

/-- `OrderService.process_payment_failed`: set the matching order's status
to `failed`; when no row matches, only log. -/
def order_process_payment_failed (orders : List OrderRow)
    (e : PaymentFailedEvent) : List OrderRow :=
  orders.map (fun o => if o.id = e.order_id then { o with status := .failed } else o)

/-- `OrderService.create_order` (HTTP `POST /create_order`): insert a new
order with status `pending` and build the `OrderCreatedEvent` published to
`order_created_queue`. -/
def create_order (orders : List OrderRow) (newId : Int)
    (product_id quantity : Int) (now : Datetime) :
    List OrderRow × OrderCreatedEvent :=
  (orders ++ [{ id := newId, product_id := product_id, quantity := quantity,
                status := .pending }],
   { order_id := newId, product_id := product_id, quantity := quantity,
     timestamp := now })

/-- `PaymentService.process_stock_reserved`: after a fixed delay,
unconditionally simulate payment failure and build the
`PaymentFailedEvent` published to the `payment_failed` fanout exchange. -/
def payment_process_stock_reserved (e : StockReservedEvent) (now : Datetime) :
    PaymentFailedEvent :=
  { payment_id := none, order_id := e.order_id,
    reason := "Insufficient funds (simulated failure for saga demonstration)",
    timestamp := now }

/-! ### Saga transition system

Global state of the choreographed saga: the two database tables and the
in-flight event queues.  `PaymentFailed` is published to a fanout
exchange with two bound queues (`order_payment_failed_queue` and
`inventory_payment_failed_queue`), so publishing it enqueues one copy in
each. -/

/-- Global saga state. -/
structure SagaState where
  orders : List OrderRow
  nextOrderId : Int
  inventory : List (Int × Int)
  qOrderCreated : List OrderCreatedEvent
  qStockReserved : List StockReservedEvent
  qPaymentFailedOrder : List PaymentFailedEvent
  qPaymentFailedInv : List PaymentFailedEvent
  qStockReleased : List StockReleasedEvent
deriving Repr

/-- Initial saga state: empty tables, empty queues. -/
def initSagaState : SagaState :=
  { orders := [], nextOrderId := 1, inventory := [], qOrderCreated := [],
    qStockReserved := [], qPaymentFailedOrder := [], qPaymentFailedInv := [],
    qStockReleased := [] }

/-- Effect of the `POST /create_order` endpoint on the global state. -/
def applyCreateOrder (s : SagaState) (product_id quantity : Int)
    (now : Datetime) : SagaState :=
  { s with
    orders := (create_order s.orders s.nextOrderId product_id quantity now).1,
    nextOrderId := s.nextOrderId + 1,
    qOrderCreated := s.qOrderCreated ++
      [(create_order s.orders s.nextOrderId product_id quantity now).2] }

/-- Effect of the inventory service consuming the head of
`order_created_queue`. -/
def applyInvOrderCreated (s : SagaState) (e : OrderCreatedEvent)
    (rest : List OrderCreatedEvent) (now : Datetime) : SagaState :=
  { s with
    inventory := (inventory_process_order_created s.inventory e now).1,
    qOrderCreated := rest,
    qStockReserved := s.qStockReserved ++
      [(inventory_process_order_created s.inventory e now).2] }

/-- Effect of the payment service consuming the head of
`stock_reserved_queue`: the `PaymentFailedEvent` is fanned out to both
bound queues. -/
def applyPayStockReserved (s : SagaState) (e : StockReservedEvent)
    (rest : List StockReservedEvent) (now : Datetime) : SagaState :=
  let pf := payment_process_stock_reserved e now
  { s with qStockReserved := rest,
           qPaymentFailedOrder := s.qPaymentFailedOrder ++ [pf],
           qPaymentFailedInv := s.qPaymentFailedInv ++ [pf] }

/-- Effect of the order service consuming the head of its
`order_payment_failed_queue`. -/
def applyOrderPaymentFailed (s : SagaState) (e : PaymentFailedEvent)
    (rest : List PaymentFailedEvent) : SagaState :=
  { s with qPaymentFailedOrder := rest,
           orders := order_process_payment_failed s.orders e }

/-- Effect of the inventory service consuming the head of its
`inventory_payment_failed_queue`. -/
def applyInvPaymentFailed (s : SagaState) (e : PaymentFailedEvent)
    (rest : List PaymentFailedEvent) (now : Datetime) : SagaState :=
  { s with
    qPaymentFailedInv := rest,
    inventory := (inventory_process_payment_failed s.inventory e now).1,
    qStockReleased := s.qStockReleased ++
      [(inventory_process_payment_failed s.inventory e now).2] }

/-- One step of the choreographed saga: an HTTP order creation or one
service consuming the head of one of its queues. -/
inductive SagaStep : SagaState → SagaState → Prop where
  | createOrder (s : SagaState) (product_id quantity : Int) (now : Datetime) :
      SagaStep s (applyCreateOrder s product_id quantity now)
  | invOrderCreated (s : SagaState) (e : OrderCreatedEvent)
      (rest : List OrderCreatedEvent) (now : Datetime)
      (h : s.qOrderCreated = e :: rest) :
      SagaStep s (applyInvOrderCreated s e rest now)
  | payStockReserved (s : SagaState) (e : StockReservedEvent)
      (rest : List StockReservedEvent) (now : Datetime)
      (h : s.qStockReserved = e :: rest) :
      SagaStep s (applyPayStockReserved s e rest now)
  | orderPaymentFailed (s : SagaState) (e : PaymentFailedEvent)
      (rest : List PaymentFailedEvent)
      (h : s.qPaymentFailedOrder = e :: rest) :
      SagaStep s (applyOrderPaymentFailed s e rest)
  | invPaymentFailed (s : SagaState) (e : PaymentFailedEvent)
      (rest : List PaymentFailedEvent) (now : Datetime)
      (h : s.qPaymentFailedInv = e :: rest) :
      SagaStep s (applyInvPaymentFailed s e rest now)

/-- Saga states reachable from the initial state. -/
def SagaReachable (s : SagaState) : Prop :=
  Relation.ReflTransGen SagaStep initSagaState s

/-! ## Broker client (`rabbitmq_client.py`)

`RabbitMQClient` owns an optional channel (`None` before `connect()`), and
every operation other than `connect`/`disconnect` first checks
`if not self.channel: raise RuntimeError(...)`.  The broker itself is
modelled by its declared queues (with buffered messages), declared
exchanges, and queue-exchange bindings.  Durability flags only matter
across broker restarts and are accepted but not tracked. -/

/-- A message as materialized by `publish_message`:
`aio_pika.Message(body, delivery_mode=PERSISTENT, content_type="application/json")`. -/
structure BrokerMessage where
  body : String
  persistent : Bool
  content_type : String
deriving DecidableEq, Repr

/-- `aio_pika.ExchangeType` values. -/
inductive PyExchangeType where
  | direct
  | fanout
  | topic
  | hdrs
deriving DecidableEq, Repr

/-- Broker-side state: declared queues with their buffered messages,
declared exchanges with their type, and bindings
`(exchange, queue, routing_key)`. -/
structure BrokerState where
  queues : List (String × List BrokerMessage)
  exchanges : List (String × PyExchangeType)
  bindings : List (String × String × String)
deriving Repr

/-- Client-side state: `self.channel` (set by `connect()`). -/
structure ClientState where
  channel : Option Unit
deriving DecidableEq, Repr

/-- Errors raised by client operations. -/
inductive ClientError where
  | runtimeError (msg : String)
  | exchangeNotFound (name : String)
deriving DecidableEq, Repr

/-- The `RuntimeError` raised by every operation called before
`connect()`. -/
def channelNotInitialized : ClientError :=
  .runtimeError "Channel not initialized. Call connect() first."

/-- Idempotent queue declaration on the broker (creates if absent). -/
def ensure_queue (b : BrokerState) (name : String) : BrokerState :=
  match b.queues.lookup name with
  | some _ => b
  | none => { b with queues := b.queues ++ [(name, [])] }

/-- Idempotent exchange declaration on the broker (creates if absent). -/
def ensure_exchange (b : BrokerState) (name : String)
    (ty : PyExchangeType) : BrokerState :=
  match b.exchanges.lookup name with
  | some _ => b
  | none => { b with exchanges := b.exchanges ++ [(name, ty)] }

/-- Append `msg` to every declared queue whose name is in `targets`
(a queue bound several times still receives one copy). -/
def deliver (qs : List (String × List BrokerMessage)) (targets : List String)
    (msg : BrokerMessage) : List (String × List BrokerMessage) :=
  qs.map (fun p => if p.1 ∈ targets then (p.1, p.2 ++ [msg]) else p)

/-- `RabbitMQClient.declare_queue(queue_name, durable, auto_delete)`. -/
def declare_queue (c : ClientState) (b : BrokerState) (queue_name : String)
    (_durable _auto_delete : Bool) : Except ClientError BrokerState :=
  match c.channel with
  | none => .error channelNotInitialized
  | some _ => .ok (ensure_queue b queue_name)

/-- `RabbitMQClient.declare_exchange(exchange_name, exchange_type, durable)`. -/
def declare_exchange (c : ClientState) (b : BrokerState)
    (exchange_name : String) (exchange_type : PyExchangeType)
    (_durable : Bool) : Except ClientError BrokerState :=
  match c.channel with
  | none => .error channelNotInitialized
  | some _ => .ok (ensure_exchange b exchange_name exchange_type)

/-- The message object built by `publish_message`:
`aio_pika.Message(body=message_body.encode(),
delivery_mode=aio_pika.DeliveryMode.PERSISTENT,
content_type="application/json")`. -/
def published_message (message_body : String) : BrokerMessage :=
  { body := message_body, persistent := true,
    content_type := "application/json" }

/-- `RabbitMQClient.publish_message(exchange_name, routing_key,
message_body, exchange_type)`: build a persistent `application/json`
message; with the empty exchange name use the channel's default exchange,
which routes to the queue named by the routing key; otherwise declare the
exchange and route by its type (direct: bindings with a matching routing
key; fanout: every bound queue; the topic wildcard grammar is unused in
this repository and modelled as exact match). -/
def publish_message (c : ClientState) (b : BrokerState)
    (exchange_name routing_key message_body : String)
    (exchange_type : PyExchangeType) : Except ClientError BrokerState :=
  match c.channel with
  | none => .error channelNotInitialized
  | some _ =>
    let msg := published_message message_body
    if exchange_name = "" then
      .ok { b with queues := deliver b.queues [routing_key] msg }
    else
      let b1 := ensure_exchange b exchange_name exchange_type
      let ety := (b1.exchanges.lookup exchange_name).getD exchange_type
      let targets := b1.bindings.filterMap (fun t =>
        if t.1 = exchange_name ∧ (ety = .fanout ∨ t.2.2 = routing_key) then
          some t.2.1
        else none)
      .ok { b1 with queues := deliver b1.queues targets msg }

/-- `RabbitMQClient.consume_messages(queue_name, callback, auto_ack)`:
declares the queue and registers the callback on it. -/
def consume_messages (c : ClientState) (b : BrokerState)
    (queue_name : String) (_auto_ack : Bool) : Except ClientError BrokerState :=
  match c.channel with
  | none => .error channelNotInitialized
  | some _ => .ok (ensure_queue b queue_name)

/-- `RabbitMQClient.bind_queue_to_exchange(queue_name, exchange_name,
routing_key)`: declares the queue, looks the exchange up
(`channel.get_exchange` fails when it was never declared) and binds. -/
def bind_queue_to_exchange (c : ClientState) (b : BrokerState)
    (queue_name exchange_name routing_key : String) :
    Except ClientError BrokerState :=
  match c.channel with
  | none => .error channelNotInitialized
  | some _ =>
    let b1 := ensure_queue b queue_name
    match b1.exchanges.lookup exchange_name with
    | none => .error (.exchangeNotFound exchange_name)
    | some _ =>
      .ok { b1 with bindings :=
              b1.bindings ++ [(exchange_name, queue_name, routing_key)] }

lemma ack_not_mem_except_clause (max_retries : Int) (m : IncomingMessage)
    (bodyVar : Option String) : Effect.ack ∉ except_clause max_retries m bodyVar := by
  cases bodyVar <;> simp only [except_clause] <;> split <;> simp

lemma handle_message_of_failure (max_retries : Int) (m : IncomingMessage)
    (hlt : get_retry_count m < max_retries) :
    handle_message max_retries m always_failing_handler = [.reject true] := by
  unfold handle_message always_failing_handler except_clause
  cases m.decodedBody <;> simp [hlt]

lemma reject_mem_except_clause (max_retries : Int) (m : IncomingMessage)
    (bodyVar : Option String) :
    ∃ rq, Effect.reject rq ∈ except_clause max_retries m bodyVar := by
  cases bodyVar <;> simp only [except_clause] <;> split
  · exact ⟨true, by simp⟩
  · exact ⟨false, by simp⟩
  · exact ⟨true, by simp⟩
  · exact ⟨false, by simp⟩

lemma broker_run_stuck (max_retries : Int) (m : IncomingMessage)
    (hlt : get_retry_count m < max_retries) (n : Nat) :
    (broker_run max_retries always_failing_handler m n).queued = true ∧
    (broker_run max_retries always_failing_handler m n).acked = false ∧
    (broker_run max_retries always_failing_handler m n).deadLettered = false ∧
    (broker_run max_retries always_failing_handler m n).msg = m := by
  induction n with
  | zero => exact ⟨rfl, rfl, rfl, rfl⟩
  | succ n ih =>
    obtain ⟨hq, ha, hd, hm⟩ := ih
    have h1 : handle_message max_retries m always_failing_handler =
        [.reject true] := handle_message_of_failure _ _ hlt
    simp [broker_run, broker_step, hq, h1, ha, hd, hm]

/-- C2: the retry bound is not enforced by the code.  `_handle_message`
rejects a failed message with requeue but never attaches an incremented
`x-retry-count` to it (nothing in the repository writes that header, and a
broker requeue leaves headers untouched), so a redelivered copy is
identical to the original.  For a freshly published message (no
`x-retry-count` header, retry count `0`) and a handler that always fails,
after any number `n` of delivery attempts the message is still queued for
redelivery and was never acknowledged and never dead-lettered: it is
retried indefinitely, contradicting the claimed bound of exactly
`max_retries` (default 3) retries followed by a reject-without-requeue. -/
theorem retry_bound_violated_infinite_requeue (n : Nat) :
    (broker_run 3 always_failing_handler ⟨some "{}", []⟩ n).queued = true ∧
    (broker_run 3 always_failing_handler ⟨some "{}", []⟩ n).acked = false ∧
    (broker_run 3 always_failing_handler ⟨some "{}", []⟩ n).deadLettered = false := by
  obtain ⟨hq, ha, hd, _⟩ := broker_run_stuck 3 ⟨some "{}", []⟩ (by decide) n
  exact ⟨hq, ha, hd⟩

/-- C3: a message is acknowledged exactly when its body decoded and the
handler completed without error; on any handler exception or cancellation
(or decode failure) the message is not acknowledged and some reject is
issued instead. -/
theorem ack_iff_handler_success (max_retries : Int) (m : IncomingMessage)
    (handler : String → HandlerOutcome) :
    (Effect.ack ∈ handle_message max_retries m handler ↔
      ∃ b, m.decodedBody = some b ∧ handler b = .success) ∧
    ((∀ b, m.decodedBody = some b → handler b ≠ .success) →
      Effect.ack ∉ handle_message max_retries m handler ∧
      ∃ rq, Effect.reject rq ∈ handle_message max_retries m handler) := by
  constructor
  · cases hmb : m.decodedBody with
    | none =>
        simp only [handle_message, hmb]
        simp [ack_not_mem_except_clause]
    | some b =>
        cases hh : handler b with
        | success => simp [handle_message, hmb, hh]
        | failure =>
            simp only [handle_message, hmb, hh]
            simp [ack_not_mem_except_clause, hh]
        | cancelled => simp [handle_message, hmb, hh]
  · intro hns
    cases hmb : m.decodedBody with
    | none =>
        simp only [handle_message, hmb]
        exact ⟨ack_not_mem_except_clause _ _ _, reject_mem_except_clause _ _ _⟩
    | some b =>
        cases hh : handler b with
        | success => exact absurd hh (hns b hmb)
        | failure =>
            simp only [handle_message, hmb, hh]
            exact ⟨ack_not_mem_except_clause _ _ _, reject_mem_except_clause _ _ _⟩
        | cancelled =>
            simp only [handle_message, hmb, hh]
            exact ⟨by simp, ⟨true, by simp⟩⟩

/-- Witness for `ack_iff_handler_success` at a concrete message and
handler. -/
theorem ack_iff_handler_success_witness :
    (Effect.ack ∈ handle_message 3 ⟨some "ok", []⟩ (fun _ => .success) ↔
      ∃ b, (⟨some "ok", []⟩ : IncomingMessage).decodedBody = some b ∧
        (fun _ : String => HandlerOutcome.success) b = .success) ∧
    ((∀ b, (⟨some "ok", []⟩ : IncomingMessage).decodedBody = some b →
        (fun _ : String => HandlerOutcome.success) b ≠ .success) →
      Effect.ack ∉ handle_message 3 ⟨some "ok", []⟩ (fun _ => .success) ∧
      ∃ rq, Effect.reject rq ∈ handle_message 3 ⟨some "ok", []⟩ (fun _ => .success)) :=
  ack_iff_handler_success 3 ⟨some "ok", []⟩ (fun _ => .success)

/-- C6: a message whose handler is interrupted by cooperative cancellation
is rejected-with-requeue unconditionally (whatever its retry count), never
acknowledged and never rejected-without-requeue, and the run loop then
processes no further delivery; a cancellation arriving between deliveries
likewise stops the loop with no further effects. -/
theorem cancellation_requeues_and_stops (max_retries : Int)
    (m : IncomingMessage) (handler : String → HandlerOutcome)
    (rest : List LoopInput) (b : String)
    (hb : m.decodedBody = some b) (hc : handler b = .cancelled) :
    consumer_loop max_retries handler (.msg m :: rest) =
      [.reject true, .raiseCancelled] ∧
    consumer_loop max_retries handler (.cancel :: rest) = [] := by
  constructor
  · simp [consumer_loop, handle_message, hb, hc]
  · rfl

/-- Witness for `cancellation_requeues_and_stops`: a message whose retry
count (99) is far beyond `max_retries` is still requeued on cancellation,
and the pending delivery after it is not processed. -/
theorem cancellation_requeues_and_stops_witness :
    consumer_loop 3 (fun _ => .cancelled)
      (.msg ⟨some "x", [("x-retry-count", 99)]⟩ :: [.cancel]) =
      [.reject true, .raiseCancelled] :=
  (cancellation_requeues_and_stops 3 ⟨some "x", [("x-retry-count", 99)]⟩
    (fun _ => .cancelled) [.cancel] "x" rfl rfl).1

/-- C9: when the body is not valid UTF-8 (decode raises before the local
`body` is assigned) and the retry count has reached `max_retries`, the
dead-letter branch first performs `reject(requeue=False)` and then raises
`NameError` from the log line that reads the unbound local `body`; the
message is never acknowledged and never requeued on this path. -/
theorem deadletter_undecodable_raises_nameerror (max_retries : Int)
    (m : IncomingMessage) (handler : String → HandlerOutcome)
    (hb : m.decodedBody = none)
    (hge : max_retries ≤ get_retry_count m) :
    handle_message max_retries m handler = [.reject false, .raiseNameError] := by
  simp [handle_message, hb, except_clause, not_lt.mpr hge]

/-- Witness for `deadletter_undecodable_raises_nameerror` at a concrete
undecodable message whose retry count equals the default `max_retries`. -/
theorem deadletter_undecodable_raises_nameerror_witness :
    handle_message 3 ⟨none, [("x-retry-count", 3)]⟩ (fun _ => .success) =
      [.reject false, .raiseNameError] :=
  deadletter_undecodable_raises_nameerror 3 ⟨none, [("x-retry-count", 3)]⟩
    (fun _ => .success) rfl (by decide)

lemma mem_order_process_payment_failed {orders : List OrderRow}
    {e : PaymentFailedEvent} {o : OrderRow}
    (h : o ∈ order_process_payment_failed orders e) :
    ∃ o' ∈ orders, o = o' ∨ o = { o' with status := .failed } := by
  simp only [order_process_payment_failed, List.mem_map] at h
  obtain ⟨o', ho', rfl⟩ := h
  refine ⟨o', ho', ?_⟩
  by_cases hid : o'.id = e.order_id
  · exact Or.inr (by simp [hid])
  · exact Or.inl (by simp [hid])

/-- C1: the saga compensation is not implemented.  The inventory
participant's `process_payment_failed` handler leaves the
`inventory_items` table unchanged for every database state and every
`PaymentFailed` event (it only publishes a placeholder `StockReleased`
event with `product_id = 1`, `quantity = 1`), so for the scenario order
`OrderCreated{order_id=1, product_id=1, quantity=5}` followed by
`PaymentFailed{order_id=1}` the reserved count of product 1 is still 5
after compensation, not decremented by the reserved quantity as claimed. -/
theorem inventory_compensation_never_decrements :
    (∀ (db : List (Int × Int)) (e : PaymentFailedEvent) (now : Datetime),
      (inventory_process_payment_failed db e now).1 = db) ∧
    reserved_of
      ((inventory_process_payment_failed
          (inventory_process_order_created []
            ⟨1, 1, 5, ⟨2025, 1, 1, 12, 0, 0, 0⟩⟩ ⟨2025, 1, 1, 12, 0, 0, 0⟩).1
          ⟨none, 1, "Insufficient funds (simulated failure for saga demonstration)",
            ⟨2025, 1, 1, 12, 0, 0, 1⟩⟩
          ⟨2025, 1, 1, 12, 0, 0, 1⟩).1) 1 = 5 ∧
    (∀ (db : List (Int × Int)) (e : PaymentFailedEvent) (now : Datetime),
      (inventory_process_payment_failed db e now).2.product_id = 1 ∧
      (inventory_process_payment_failed db e now).2.quantity = 1) :=
  ⟨fun _ _ _ => rfl, by decide, fun _ _ _ => ⟨rfl, rfl⟩⟩

/-- C5: in every reachable saga state, no order row has status
`completed`: order rows are created `pending` by `create_order` and only
ever rewritten to `failed` by the order service's `process_payment_failed`
handler; the payment participant unconditionally publishes
`PaymentFailed`, and no transition writes `completed`. -/
theorem saga_no_completed_order (s : SagaState) (h : SagaReachable s) :
    ∀ o ∈ s.orders, o.status ≠ OrderStatus.completed := by
  induction h with
  | refl => intro o ho; simp [initSagaState] at ho
  | tail _ hstep ih =>
    cases hstep with
    | createOrder product_id quantity now =>
        intro o ho
        simp only [applyCreateOrder, create_order] at ho
        rcases List.mem_append.mp ho with hmem | hnew
        · exact ih o hmem
        · rw [List.mem_singleton] at hnew
          subst hnew
          simp
    | invOrderCreated e rest now hq =>
        intro o ho
        exact ih o ho
    | payStockReserved e rest now hq =>
        intro o ho
        exact ih o ho
    | orderPaymentFailed e rest hq =>
        intro o ho
        obtain ⟨o', ho', hcase⟩ := mem_order_process_payment_failed ho
        rcases hcase with h1 | h1
        · rw [h1]; exact ih o' ho'
        · rw [h1]; simp
    | invPaymentFailed e rest now hq =>
        intro o ho
        exact ih o ho

/-- Witness for `saga_no_completed_order`: the state reached by one
`POST /create_order` step is reachable, and its single (pending) order row
is not `completed`. -/
theorem saga_no_completed_order_witness :
    ({ id := 1, product_id := 1, quantity := 5, status := .pending } : OrderRow).status ≠
      OrderStatus.completed :=
  saga_no_completed_order
    (applyCreateOrder initSagaState 1 5 ⟨2025, 1, 1, 12, 0, 0, 0⟩)
    (Relation.ReflTransGen.single
      (SagaStep.createOrder initSagaState 1 5 ⟨2025, 1, 1, 12, 0, 0, 0⟩))
    { id := 1, product_id := 1, quantity := 5, status := .pending }
    (by simp [applyCreateOrder, create_order, initSagaState])

lemma lookup_cons {α : Type} (k : String) (p : String × α)
    (l : List (String × α)) :
    List.lookup k (p :: l) = if k = p.1 then some p.2 else List.lookup k l := by
  rcases p with ⟨a, b⟩
  by_cases h : k = a
  · subst h; simp [List.lookup]
  · have hb : (k == a) = false := beq_eq_false_iff_ne.mpr h
    simp [List.lookup, hb, h]

lemma lookup_deliver (qs : List (String × List BrokerMessage))
    (targets : List String) (msg : BrokerMessage) (name : String) :
    (deliver qs targets msg).lookup name =
      (qs.lookup name).map (fun l => if name ∈ targets then l ++ [msg] else l) := by
  induction qs with
  | nil => rfl
  | cons p rest ih =>
    obtain ⟨n0, l0⟩ := p
    by_cases ht : n0 ∈ targets
    · show List.lookup name ((if n0 ∈ targets then (n0, l0 ++ [msg]) else (n0, l0)) ::
        deliver rest targets msg) = _
      rw [if_pos ht, lookup_cons, lookup_cons]
      by_cases hn : name = n0
      · subst hn; simp [ht]
      · simp only [hn, if_false, ih, if_neg hn]
    · show List.lookup name ((if n0 ∈ targets then (n0, l0 ++ [msg]) else (n0, l0)) ::
        deliver rest targets msg) = _
      rw [if_neg ht, lookup_cons, lookup_cons]
      by_cases hn : name = n0
      · subst hn; simp [ht]
      · simp only [hn, if_false, ih, if_neg hn]

lemma ensure_exchange_queues (b : BrokerState) (name : String)
    (ty : PyExchangeType) : (ensure_exchange b name ty).queues = b.queues := by
  unfold ensure_exchange
  cases b.exchanges.lookup name <;> rfl

/-- C8: `publish_message` with the empty exchange name publishes via the
default exchange, appending the message to the queue named by the routing
key (other queues unchanged); and every message it ever adds to a queue —
on the default-exchange path or through a named exchange — is persistent
with content-type `application/json`. -/
theorem publish_message_default_exchange_spec (c : ClientState)
    (b : BrokerState) (routing_key message_body : String)
    (exchange_type : PyExchangeType) (hch : c.channel = some ()) :
    (∃ b', publish_message c b "" routing_key message_body exchange_type = .ok b' ∧
       ∀ name q0, b.queues.lookup name = some q0 →
         b'.queues.lookup name =
           some (if name = routing_key then
                   q0 ++ [{ body := message_body, persistent := true,
                            content_type := "application/json" }]
                 else q0)) ∧
    (∀ exchange_name b'',
       publish_message c b exchange_name routing_key message_body exchange_type = .ok b'' →
       ∀ name q0 q', b.queues.lookup name = some q0 →
         b''.queues.lookup name = some q' →
         q' = q0 ∨ q' = q0 ++ [{ body := message_body, persistent := true,
                                 content_type := "application/json" }]) := by
  obtain ⟨ch⟩ := c
  have hch' : ch = some () := hch
  subst hch'
  constructor
  · refine ⟨{ b with
        queues := deliver b.queues [routing_key] (published_message message_body) },
      ?_, ?_⟩
    · simp [publish_message]
    · intro name q0 hq0
      show (deliver b.queues [routing_key] _).lookup name = _
      rw [lookup_deliver, hq0]
      by_cases hn : name = routing_key <;> simp [hn, published_message]
  · intro exchange_name b'' hpub name q0 q' hq0 hq'
    by_cases hex : exchange_name = ""
    · subst hex
      simp only [publish_message, if_pos rfl] at hpub
      cases hpub
      rw [lookup_deliver, hq0] at hq'
      simp only [Option.map_some', Option.some.injEq] at hq'
      subst hq'
      split
      · exact Or.inr rfl
      · exact Or.inl rfl
    · simp only [publish_message, if_neg hex] at hpub
      cases hpub
      rw [lookup_deliver] at hq'
      rw [ensure_exchange_queues, hq0] at hq'
      simp only [Option.map_some', Option.some.injEq] at hq'
      subst hq'
      split
      · exact Or.inr rfl
      · exact Or.inl rfl

/-- Witness for `publish_message_default_exchange_spec`: publishing `"{}"`
with empty exchange name and routing key `order_created_queue` on a broker
with that (empty) queue declared appends the persistent
`application/json` message to it. -/
theorem publish_message_default_exchange_spec_witness :
    (match publish_message ⟨some ()⟩ ⟨[("order_created_queue", [])], [], []⟩ ""
        "order_created_queue" "{}" PyExchangeType.direct with
     | .ok b' => b'.queues.lookup "order_created_queue"
     | .error _ => none) =
      some [{ body := "{}", persistent := true,
              content_type := "application/json" }] := by
  obtain ⟨b', heq, hall⟩ := (publish_message_default_exchange_spec ⟨some ()⟩
      ⟨[("order_created_queue", [])], [], []⟩ "order_created_queue" "{}"
      PyExchangeType.direct rfl).1
  rw [heq]
  simpa using hall "order_created_queue" [] (by simp)

/-- C10: every broker-client operation other than `connect`/`disconnect`
(`declare_queue`, `declare_exchange`, `publish_message`,
`consume_messages`, `bind_queue_to_exchange`) raises
`RuntimeError("Channel not initialized. Call connect() first.")` when the
channel was never initialized, returning no new broker state (no broker
side effect). -/
theorem ops_require_channel (c : ClientState) (b : BrokerState)
    (qn exn rk body : String) (et : PyExchangeType) (d ad aa : Bool)
    (h : c.channel = none) :
    declare_queue c b qn d ad = .error channelNotInitialized ∧
    declare_exchange c b exn et d = .error channelNotInitialized ∧
    publish_message c b exn rk body et = .error channelNotInitialized ∧
    consume_messages c b qn aa = .error channelNotInitialized ∧
    bind_queue_to_exchange c b qn exn rk = .error channelNotInitialized := by
  refine ⟨?_, ?_, ?_, ?_, ?_⟩ <;>
    simp [declare_queue, declare_exchange, publish_message, consume_messages,
      bind_queue_to_exchange, h]

/-- Witness for `ops_require_channel` on a fresh client (no channel) and
an empty broker. -/
theorem ops_require_channel_witness :
    declare_queue ⟨none⟩ ⟨[], [], []⟩ "q" true false = .error channelNotInitialized ∧
    declare_exchange ⟨none⟩ ⟨[], [], []⟩ "e" PyExchangeType.direct true =
      .error channelNotInitialized ∧
    publish_message ⟨none⟩ ⟨[], [], []⟩ "e" "k" "{}" PyExchangeType.direct =
      .error channelNotInitialized ∧
    consume_messages ⟨none⟩ ⟨[], [], []⟩ "q" false = .error channelNotInitialized ∧
    bind_queue_to_exchange ⟨none⟩ ⟨[], [], []⟩ "q" "e" "k" =
      .error channelNotInitialized :=
  ops_require_channel ⟨none⟩ ⟨[], [], []⟩ "q" "e" "k" "{}"
    PyExchangeType.direct true false false rfl

/-! ### Serialization round-trip lemmas -/

lemma digit_val_digit_char (d : Nat) (h : d < 10) :
    digit_val (digit_char d) = some d := by
  interval_cases d <;> rfl

lemma readDigitsAux_append (acc : Nat) (l1 l2 : List Char) :
    readDigitsAux acc (l1 ++ l2) =
      (readDigitsAux acc l1).bind (fun a => readDigitsAux a l2) := by
  induction l1 generalizing acc with
  | nil => rfl
  | cons c cs ih =>
    simp only [List.cons_append, readDigitsAux]
    cases digit_val c with
    | none => rfl
    | some d => exact ih _

lemma readDigitsAux_pad (k : Nat) : ∀ (n acc : Nat), n < 10 ^ k →
    readDigitsAux acc (padDigits k n) = some (acc * 10 ^ k + n) := by
  induction k with
  | zero =>
    intro n acc h
    simp only [pow_zero, Nat.lt_one_iff] at h
    subst h
    simp [padDigits, readDigitsAux]
  | succ k ih =>
    intro n acc h
    have hdiv : n / 10 < 10 ^ k := by
      rw [Nat.div_lt_iff_lt_mul (by norm_num : 0 < 10)]
      calc n < 10 ^ (k + 1) := h
        _ = 10 ^ k * 10 := by ring
    simp only [padDigits, readDigitsAux_append, ih (n / 10) acc hdiv,
      Option.some_bind]
    simp only [readDigitsAux, digit_val_digit_char (n % 10) (Nat.mod_lt n (by norm_num))]
    congr 1
    have := Nat.div_add_mod n 10
    calc (acc * 10 ^ k + n / 10) * 10 + n % 10
        = acc * (10 ^ k * 10) + (n / 10 * 10 + n % 10) := by ring
      _ = acc * 10 ^ (k + 1) + n := by
          rw [pow_succ]
          have hm : n / 10 * 10 + n % 10 = n := by omega
          rw [hm]

lemma padDigits_length (k n : Nat) : (padDigits k n).length = k := by
  induction k generalizing n with
  | zero => rfl
  | succ k ih => simp [padDigits, ih]

lemma readFixed_pad (k n : Nat) (rest : List Char) (h : n < 10 ^ k) :
    readFixed k (padDigits k n ++ rest) = some (n, rest) := by
  have htake : (padDigits k n ++ rest).take k = padDigits k n := by
    have := List.take_left (padDigits k n) rest
    rwa [padDigits_length] at this
  have hdrop : (padDigits k n ++ rest).drop k = rest := by
    have := List.drop_left (padDigits k n) rest
    rwa [padDigits_length] at this
  have hread := readDigitsAux_pad k n 0 h
  simp [readFixed, htake, hdrop, padDigits_length, hread]

lemma readFixed_pad_nil (k n : Nat) (h : n < 10 ^ k) :
    readFixed k (padDigits k n) = some (n, []) := by
  have := readFixed_pad k n [] h
  rwa [List.append_nil] at this

lemma expectChar_cons (c : Char) (rest : List Char) :
    expectChar c (c :: rest) = some rest := by
  simp [expectChar]

lemma opt_bind_some {α β : Type} (a : α) (f : α → Option β) :
    (some a >>= f) = f a := rfl

set_option maxHeartbeats 1000000 in
theorem parseIso_isoChars (t : Datetime) (h : t.wf) :
    parseIso (isoChars t) = some t := by
  obtain ⟨y, mo, d, hr, mi, s, us⟩ := t
  obtain ⟨h1, h2, h3, h4, h5, h6, h7⟩ := h
  have e1 : y < 10 ^ 4 := h1
  have e2 : mo < 10 ^ 2 := h2
  have e3 : d < 10 ^ 2 := h3
  have e4 : hr < 10 ^ 2 := h4
  have e5 : mi < 10 ^ 2 := h5
  have e6 : s < 10 ^ 2 := h6
  have e7 : us < 10 ^ 6 := h7
  by_cases hus : us = 0
  · subst hus
    simp only [isoChars, if_true, eq_self_iff_true]
    simp only [parseIso, readFixed_pad, readFixed_pad_nil, expectChar_cons,
      opt_bind_some, e1, e2, e3, e4, e5, e6, e7]
  · simp only [isoChars, if_neg hus]
    simp only [parseIso, readFixed_pad, readFixed_pad_nil, expectChar_cons,
      opt_bind_some, e1, e2, e3, e4, e5, e6, e7]

lemma except_bind_ok {α β : Type} (a : α) (f : α → Except ValErr β) :
    (Except.ok a >>= f : Except ValErr β) = f a := rfl

lemma userRegistered_roundtrip (e : UserRegisteredEvent)
    (hw : e.timestamp.wf) (he : validEmail e.email = true) :
    UserRegisteredEvent.from_json (UserRegisteredEvent.to_json e) = .ok e := by
  obtain ⟨uid, em, ts⟩ := e
  have hw' : ts.wf := hw
  have he' : validEmail em = true := he
  simp [UserRegisteredEvent.from_json, UserRegisteredEvent.to_json,
    reqIntField, emailField, datetimeField, datetime_of_iso, iso_of_datetime,
    List.lookup, he', parseIso_isoChars ts hw', except_bind_ok]

lemma paymentInitiated_roundtrip (e : PaymentInitiatedEvent)
    (hw : e.timestamp.wf) :
    PaymentInitiatedEvent.from_json (PaymentInitiatedEvent.to_json e) = .ok e := by
  obtain ⟨pid, am, cur, ts⟩ := e
  have hw' : ts.wf := hw
  simp [PaymentInitiatedEvent.from_json, PaymentInitiatedEvent.to_json,
    reqStrField, reqNumField, datetimeField, datetime_of_iso, iso_of_datetime,
    List.lookup, parseIso_isoChars ts hw', except_bind_ok]

lemma paymentCompleted_roundtrip (e : PaymentCompletedEvent)
    (hw : e.timestamp.wf) :
    PaymentCompletedEvent.from_json (PaymentCompletedEvent.to_json e) = .ok e := by
  obtain ⟨pid, tx, st, ts⟩ := e
  have hw' : ts.wf := hw
  simp [PaymentCompletedEvent.from_json, PaymentCompletedEvent.to_json,
    reqStrField, datetimeField, datetime_of_iso, iso_of_datetime,
    List.lookup, parseIso_isoChars ts hw', except_bind_ok]

lemma paymentFailed_roundtrip (e : PaymentFailedEvent)
    (hw : e.timestamp.wf) :
    PaymentFailedEvent.from_json (PaymentFailedEvent.to_json e) = .ok e := by
  obtain ⟨pid, oid, rsn, ts⟩ := e
  have hw' : ts.wf := hw
  cases pid <;>
    simp [PaymentFailedEvent.from_json, PaymentFailedEvent.to_json,
      optStrField, reqIntField, reqStrField, datetimeField, datetime_of_iso,
      iso_of_datetime, List.lookup, parseIso_isoChars ts hw', except_bind_ok]

lemma productUpdated_roundtrip (e : ProductUpdatedEvent)
    (hw : e.timestamp.wf) :
    ProductUpdatedEvent.from_json (ProductUpdatedEvent.to_json e) = .ok e := by
  obtain ⟨pid, nm, st, ts⟩ := e
  have hw' : ts.wf := hw
  simp [ProductUpdatedEvent.from_json, ProductUpdatedEvent.to_json,
    reqIntField, reqStrField, datetimeField, datetime_of_iso, iso_of_datetime,
    List.lookup, parseIso_isoChars ts hw', except_bind_ok]

lemma dict_keys_roundtrip (ps : List (PyKey × Json))
    (h : ∀ p ∈ ps, ∃ s, p.1 = PyKey.kstr s) :
    (ps.map (fun p => (pyKeyStr p.1, p.2))).map (fun p => (PyKey.kstr p.1, p.2)) = ps := by
  induction ps with
  | nil => rfl
  | cons p rest ih =>
    obtain ⟨s, hs⟩ := h p (by simp)
    obtain ⟨k, v⟩ := p
    simp only at hs
    subst hs
    simp only [List.map_cons, pyKeyStr, List.cons.injEq]
    exact ⟨trivial, ih fun q hq => h q (by simp [hq])⟩

lemma generateReportJob_roundtrip (e : GenerateReportJobEvent)
    (hw : e.timestamp.wf)
    (hk : ∀ p ∈ e.parameters, ∃ s, p.1 = PyKey.kstr s) :
    GenerateReportJobEvent.from_json (GenerateReportJobEvent.to_json e) = .ok e := by
  obtain ⟨jid, rt, ps, ts⟩ := e
  have hw' : ts.wf := hw
  have hk' : ∀ p ∈ ps, ∃ s, p.1 = PyKey.kstr s := hk
  simp [GenerateReportJobEvent.from_json, GenerateReportJobEvent.to_json,
    reqStrField, dictField, datetimeField, datetime_of_iso, iso_of_datetime,
    List.lookup, parseIso_isoChars ts hw', except_bind_ok,
    dict_keys_roundtrip ps hk']

lemma reportGenerated_roundtrip (e : ReportGeneratedEvent)
    (hw : e.timestamp.wf) :
    ReportGeneratedEvent.from_json (ReportGeneratedEvent.to_json e) = .ok e := by
  obtain ⟨jid, rh, du, ts⟩ := e
  have hw' : ts.wf := hw
  simp [ReportGeneratedEvent.from_json, ReportGeneratedEvent.to_json,
    reqStrField, reqNumField, datetimeField, datetime_of_iso, iso_of_datetime,
    List.lookup, parseIso_isoChars ts hw', except_bind_ok]

lemma orderCreated_roundtrip (e : OrderCreatedEvent)
    (hw : e.timestamp.wf) :
    OrderCreatedEvent.from_json (OrderCreatedEvent.to_json e) = .ok e := by
  obtain ⟨oid, pid, qty, ts⟩ := e
  have hw' : ts.wf := hw
  simp [OrderCreatedEvent.from_json, OrderCreatedEvent.to_json,
    reqIntField, datetimeField, datetime_of_iso, iso_of_datetime,
    List.lookup, parseIso_isoChars ts hw', except_bind_ok]

lemma stockReserved_roundtrip (e : StockReservedEvent)
    (hw : e.reserved_at.wf) :
    StockReservedEvent.from_json (StockReservedEvent.to_json e) = .ok e := by
  obtain ⟨oid, pid, qty, ts⟩ := e
  have hw' : ts.wf := hw
  simp [StockReservedEvent.from_json, StockReservedEvent.to_json,
    reqIntField, datetimeField, datetime_of_iso, iso_of_datetime,
    List.lookup, parseIso_isoChars ts hw', except_bind_ok]

lemma stockReleased_roundtrip (e : StockReleasedEvent)
    (hw : e.released_at.wf) :
    StockReleasedEvent.from_json (StockReleasedEvent.to_json e) = .ok e := by
  obtain ⟨oid, pid, qty, rsn, ts⟩ := e
  have hw' : ts.wf := hw
  simp [StockReleasedEvent.from_json, StockReleasedEvent.to_json,
    reqIntField, reqStrField, datetimeField, datetime_of_iso, iso_of_datetime,
    List.lookup, parseIso_isoChars ts hw', except_bind_ok]

lemma clickTracked_roundtrip (e : ClickTrackedEvent)
    (hw : e.timestamp.wf) :
    ClickTrackedEvent.from_json (ClickTrackedEvent.to_json e) = .ok e := by
  obtain ⟨uid, pg, sid, ts⟩ := e
  have hw' : ts.wf := hw
  cases sid <;>
    simp [ClickTrackedEvent.from_json, ClickTrackedEvent.to_json,
      reqIntField, reqStrField, optStrField, datetimeField, datetime_of_iso,
      iso_of_datetime, List.lookup, parseIso_isoChars ts hw', except_bind_ok]

lemma analyticsProcessed_roundtrip (e : AnalyticsProcessedEvent)
    (hw : e.processed_at.wf) :
    AnalyticsProcessedEvent.from_json (AnalyticsProcessedEvent.to_json e) = .ok e := by
  obtain ⟨bid, ec, ts⟩ := e
  have hw' : ts.wf := hw
  simp [AnalyticsProcessedEvent.from_json, AnalyticsProcessedEvent.to_json,
    reqStrField, reqIntField, datetimeField, datetime_of_iso, iso_of_datetime,
    List.lookup, parseIso_isoChars ts hw', except_bind_ok]

/-- C4 (amended): `decode(encode(e)) == e` holds for every event type in
the catalog and every valid instance whose timestamps are in textual range
and — for `GenerateReportJobEvent` — whose `parameters` dict uses only
string keys; timestamps are preserved exactly (microsecond, hence at least
millisecond, resolution).  The restriction on dict keys is forced: JSON
object keys are strings, so an int-keyed dict does not round-trip (see the
counterexample). -/
theorem event_catalog_roundtrip :
    (∀ e : UserRegisteredEvent, e.timestamp.wf → validEmail e.email = true →
      UserRegisteredEvent.from_json (UserRegisteredEvent.to_json e) = .ok e) ∧
    (∀ e : PaymentInitiatedEvent, e.timestamp.wf →
      PaymentInitiatedEvent.from_json (PaymentInitiatedEvent.to_json e) = .ok e) ∧
    (∀ e : PaymentCompletedEvent, e.timestamp.wf →
      PaymentCompletedEvent.from_json (PaymentCompletedEvent.to_json e) = .ok e) ∧
    (∀ e : PaymentFailedEvent, e.timestamp.wf →
      PaymentFailedEvent.from_json (PaymentFailedEvent.to_json e) = .ok e) ∧
    (∀ e : ProductUpdatedEvent, e.timestamp.wf →
      ProductUpdatedEvent.from_json (ProductUpdatedEvent.to_json e) = .ok e) ∧
    (∀ e : GenerateReportJobEvent, e.timestamp.wf →
      (∀ p ∈ e.parameters, ∃ s, p.1 = PyKey.kstr s) →
      GenerateReportJobEvent.from_json (GenerateReportJobEvent.to_json e) = .ok e) ∧
    (∀ e : ReportGeneratedEvent, e.timestamp.wf →
      ReportGeneratedEvent.from_json (ReportGeneratedEvent.to_json e) = .ok e) ∧
    (∀ e : OrderCreatedEvent, e.timestamp.wf →
      OrderCreatedEvent.from_json (OrderCreatedEvent.to_json e) = .ok e) ∧
    (∀ e : StockReservedEvent, e.reserved_at.wf →
      StockReservedEvent.from_json (StockReservedEvent.to_json e) = .ok e) ∧
    (∀ e : StockReleasedEvent, e.released_at.wf →
      StockReleasedEvent.from_json (StockReleasedEvent.to_json e) = .ok e) ∧
    (∀ e : ClickTrackedEvent, e.timestamp.wf →
      ClickTrackedEvent.from_json (ClickTrackedEvent.to_json e) = .ok e) ∧
    (∀ e : AnalyticsProcessedEvent, e.processed_at.wf →
      AnalyticsProcessedEvent.from_json (AnalyticsProcessedEvent.to_json e) = .ok e) :=
  ⟨userRegistered_roundtrip, paymentInitiated_roundtrip,
   paymentCompleted_roundtrip, paymentFailed_roundtrip,
   productUpdated_roundtrip, generateReportJob_roundtrip,
   reportGenerated_roundtrip, orderCreated_roundtrip,
   stockReserved_roundtrip, stockReleased_roundtrip,
   clickTracked_roundtrip, analyticsProcessed_roundtrip⟩

/-- Witness for `event_catalog_roundtrip` at concrete events (one plain
event and one with a string-keyed `parameters` dict). -/
theorem event_catalog_roundtrip_witness :
    OrderCreatedEvent.from_json (OrderCreatedEvent.to_json
      ⟨1, 1, 5, ⟨2025, 1, 1, 12, 0, 0, 123456⟩⟩) =
      .ok ⟨1, 1, 5, ⟨2025, 1, 1, 12, 0, 0, 123456⟩⟩ ∧
    GenerateReportJobEvent.from_json (GenerateReportJobEvent.to_json
      ⟨"job1", "sales", [(PyKey.kstr "k", Json.null)], ⟨2025, 1, 1, 12, 0, 0, 0⟩⟩) =
      .ok ⟨"job1", "sales", [(PyKey.kstr "k", Json.null)], ⟨2025, 1, 1, 12, 0, 0, 0⟩⟩ :=
  ⟨event_catalog_roundtrip.2.2.2.2.2.2.2.1
      ⟨1, 1, 5, ⟨2025, 1, 1, 12, 0, 0, 123456⟩⟩ (by decide),
   event_catalog_roundtrip.2.2.2.2.2.1
      ⟨"job1", "sales", [(PyKey.kstr "k", Json.null)], ⟨2025, 1, 1, 12, 0, 0, 0⟩⟩
      (by decide)
      (by intro p hp; simp only [List.mem_singleton] at hp; subst hp; exact ⟨"k", rfl⟩)⟩

/-- C4 counterexample: the round-trip law fails as universally stated: the
valid instance of `GenerateReportJobEvent` whose `parameters` dict has the
int key `1` decodes to a different event (the key comes back as the
string `"1"`, because JSON object keys are strings). -/
theorem event_roundtrip_counterexample_int_dict_key :
    GenerateReportJobEvent.from_json (GenerateReportJobEvent.to_json
      ⟨"j", "r", [(PyKey.kint 1, Json.null)], ⟨2025, 1, 1, 12, 0, 0, 0⟩⟩) ≠
      .ok ⟨"j", "r", [(PyKey.kint 1, Json.null)], ⟨2025, 1, 1, 12, 0, 0, 0⟩⟩ := by
  have h1 : GenerateReportJobEvent.from_json (GenerateReportJobEvent.to_json
      ⟨"j", "r", [(PyKey.kint 1, Json.null)], ⟨2025, 1, 1, 12, 0, 0, 0⟩⟩) =
      .ok ⟨"j", "r", [(PyKey.kstr "1", Json.null)], ⟨2025, 1, 1, 12, 0, 0, 0⟩⟩ := by
    rfl
  rw [h1]
  intro h
  simp only [Except.ok.injEq, GenerateReportJobEvent.mk.injEq] at h
  obtain ⟨-, -, hps, -⟩ := h
  simp at hps

lemma except_bind_error {α β : Type} (e : ValErr) (f : α → Except ValErr β) :
    (Except.error e >>= f : Except ValErr β) = .error e := rfl

lemma reqIntField_ok_lookup (fields : List (String × Json)) (k : String)
    (n : Int) (h : reqIntField fields k = .ok n) :
    ∃ v, fields.lookup k = some v := by
  cases hl : fields.lookup k with
  | none =>
      have hcomp : reqIntField fields k = .error ⟨k, .missing⟩ := by
        unfold reqIntField; rw [hl]
      rw [hcomp] at h
      simp at h
  | some v => exact ⟨v, rfl⟩

lemma reqIntField_error_spec (fields : List (String × Json)) (k : String)
    (err : ValErr) (h : reqIntField fields k = .error err) :
    err.field = k ∧
      (err.kind = .missing ∧ fields.lookup k = none ∨
       err.kind = .wrongType ∧ ∃ v, fields.lookup k = some v) := by
  cases hl : fields.lookup k with
  | none =>
      have hcomp : reqIntField fields k = .error ⟨k, .missing⟩ := by
        unfold reqIntField; rw [hl]
      rw [hcomp] at h
      simp only [Except.error.injEq] at h
      subst h
      exact ⟨rfl, Or.inl ⟨rfl, rfl⟩⟩
  | some v =>
      have hv : err = ⟨k, .wrongType⟩ := by
        cases v with
        | num q =>
            by_cases hd : q.den = 1
            · have hcomp : reqIntField fields k = .ok q.num := by
                unfold reqIntField; rw [hl]; simp [hd]
              rw [hcomp] at h; simp at h
            · have hcomp : reqIntField fields k = .error ⟨k, .wrongType⟩ := by
                unfold reqIntField; rw [hl]; simp [hd]
              rw [hcomp] at h
              simp only [Except.error.injEq] at h
              exact h.symm
        | str s =>
            cases hs : str_to_int s with
            | some n =>
                have hcomp : reqIntField fields k = .ok n := by
                  unfold reqIntField; rw [hl]; simp [hs]
                rw [hcomp] at h; simp at h
            | none =>
                have hcomp : reqIntField fields k = .error ⟨k, .wrongType⟩ := by
                  unfold reqIntField; rw [hl]; simp [hs]
                rw [hcomp] at h
                simp only [Except.error.injEq] at h
                exact h.symm
        | null =>
            have hcomp : reqIntField fields k = .error ⟨k, .wrongType⟩ := by
              unfold reqIntField; rw [hl]
            rw [hcomp] at h
            simp only [Except.error.injEq] at h
            exact h.symm
        | jbool b =>
            have hcomp : reqIntField fields k = .error ⟨k, .wrongType⟩ := by
              unfold reqIntField; rw [hl]
            rw [hcomp] at h
            simp only [Except.error.injEq] at h
            exact h.symm
        | arr l =>
            have hcomp : reqIntField fields k = .error ⟨k, .wrongType⟩ := by
              unfold reqIntField; rw [hl]
            rw [hcomp] at h
            simp only [Except.error.injEq] at h
            exact h.symm
        | obj l =>
            have hcomp : reqIntField fields k = .error ⟨k, .wrongType⟩ := by
              unfold reqIntField; rw [hl]
            rw [hcomp] at h
            simp only [Except.error.injEq] at h
            exact h.symm
      subst hv
      exact ⟨rfl, Or.inr ⟨rfl, v, rfl⟩⟩

lemma datetimeField_error_spec (fields : List (String × Json)) (k : String)
    (err : ValErr) (h : datetimeField fields k = .error err) :
    err.field = k ∧
      (err.kind = .missing ∧ fields.lookup k = none ∨
       err.kind = .wrongType ∧ ∃ v, fields.lookup k = some v) := by
  cases hl : fields.lookup k with
  | none =>
      have hcomp : datetimeField fields k = .ok import_time_utcnow := by
        unfold datetimeField; rw [hl]
      rw [hcomp] at h
      simp at h
  | some v =>
      have hv : err = ⟨k, .wrongType⟩ := by
        cases v with
        | str s =>
            cases hs : datetime_of_iso s with
            | some t =>
                have hcomp : datetimeField fields k = .ok t := by
                  unfold datetimeField; rw [hl]; simp [hs]
                rw [hcomp] at h; simp at h
            | none =>
                have hcomp : datetimeField fields k = .error ⟨k, .wrongType⟩ := by
                  unfold datetimeField; rw [hl]; simp [hs]
                rw [hcomp] at h
                simp only [Except.error.injEq] at h
                exact h.symm
        | null =>
            have hcomp : datetimeField fields k = .error ⟨k, .wrongType⟩ := by
              unfold datetimeField; rw [hl]
            rw [hcomp] at h
            simp only [Except.error.injEq] at h
            exact h.symm
        | jbool b =>
            have hcomp : datetimeField fields k = .error ⟨k, .wrongType⟩ := by
              unfold datetimeField; rw [hl]
            rw [hcomp] at h
            simp only [Except.error.injEq] at h
            exact h.symm
        | num q =>
            have hcomp : datetimeField fields k = .error ⟨k, .wrongType⟩ := by
              unfold datetimeField; rw [hl]
            rw [hcomp] at h
            simp only [Except.error.injEq] at h
            exact h.symm
        | arr l =>
            have hcomp : datetimeField fields k = .error ⟨k, .wrongType⟩ := by
              unfold datetimeField; rw [hl]
            rw [hcomp] at h
            simp only [Except.error.injEq] at h
            exact h.symm
        | obj l =>
            have hcomp : datetimeField fields k = .error ⟨k, .wrongType⟩ := by
              unfold datetimeField; rw [hl]
            rw [hcomp] at h
            simp only [Except.error.injEq] at h
            exact h.symm
      subst hv
      exact ⟨rfl, Or.inr ⟨rfl, v, rfl⟩⟩

/-- C7 (amended): decoding a JSON object into `OrderCreatedEvent` fails
whenever one of the required fields `order_id`, `product_id`, `quantity`
is absent, and every decode failure carries a `ValidationError` naming a
genuinely offending field (one that is missing, or present with an
unacceptable value); however — see the counterexample — validation runs in
Pydantic's default lax mode, which silently coerces numeric strings into
int fields. -/
theorem order_created_decode_validation :
    (∀ fields : List (String × Json),
       (fields.lookup "order_id" = none ∨ fields.lookup "product_id" = none ∨
        fields.lookup "quantity" = none) →
       ∃ err, OrderCreatedEvent.from_json (.obj fields) = .error err) ∧
    (∀ (fields : List (String × Json)) (err : ValErr),
       OrderCreatedEvent.from_json (.obj fields) = .error err →
       (err.kind = .missing ∧ fields.lookup err.field = none) ∨
       (err.kind = .wrongType ∧ ∃ v, fields.lookup err.field = some v)) := by
  constructor
  · intro fields hmiss
    cases h1 : reqIntField fields "order_id" with
    | error e1 =>
        exact ⟨e1, by simp [OrderCreatedEvent.from_json, h1, except_bind_error]⟩
    | ok n1 =>
      cases h2 : reqIntField fields "product_id" with
      | error e2 =>
          exact ⟨e2, by simp [OrderCreatedEvent.from_json, h1, h2,
            except_bind_ok, except_bind_error]⟩
      | ok n2 =>
        cases h3 : reqIntField fields "quantity" with
        | error e3 =>
            exact ⟨e3, by simp [OrderCreatedEvent.from_json, h1, h2, h3,
              except_bind_ok, except_bind_error]⟩
        | ok n3 =>
            obtain ⟨v1, hv1⟩ := reqIntField_ok_lookup _ _ _ h1
            obtain ⟨v2, hv2⟩ := reqIntField_ok_lookup _ _ _ h2
            obtain ⟨v3, hv3⟩ := reqIntField_ok_lookup _ _ _ h3
            rcases hmiss with hm | hm | hm <;> simp_all
  · intro fields err hdec
    simp only [OrderCreatedEvent.from_json] at hdec
    cases h1 : reqIntField fields "order_id" with
    | error e1 =>
        rw [h1, except_bind_error] at hdec
        simp only [Except.error.injEq] at hdec
        subst hdec
        obtain ⟨hf, hcase⟩ := reqIntField_error_spec _ _ _ h1
        rw [hf]
        exact hcase.imp (fun x => ⟨x.1, x.2⟩) (fun x => ⟨x.1, x.2⟩)
    | ok n1 =>
      rw [h1, except_bind_ok] at hdec
      cases h2 : reqIntField fields "product_id" with
      | error e2 =>
          rw [h2, except_bind_error] at hdec
          simp only [Except.error.injEq] at hdec
          subst hdec
          obtain ⟨hf, hcase⟩ := reqIntField_error_spec _ _ _ h2
          rw [hf]
          exact hcase.imp (fun x => ⟨x.1, x.2⟩) (fun x => ⟨x.1, x.2⟩)
      | ok n2 =>
        rw [h2, except_bind_ok] at hdec
        cases h3 : reqIntField fields "quantity" with
        | error e3 =>
            rw [h3, except_bind_error] at hdec
            simp only [Except.error.injEq] at hdec
            subst hdec
            obtain ⟨hf, hcase⟩ := reqIntField_error_spec _ _ _ h3
            rw [hf]
            exact hcase.imp (fun x => ⟨x.1, x.2⟩) (fun x => ⟨x.1, x.2⟩)
        | ok n3 =>
          rw [h3, except_bind_ok] at hdec
          cases h4 : datetimeField fields "timestamp" with
          | error e4 =>
              rw [h4, except_bind_error] at hdec
              simp only [Except.error.injEq] at hdec
              subst hdec
              obtain ⟨hf, hcase⟩ := datetimeField_error_spec _ _ _ h4
              rw [hf]
              exact hcase.imp (fun x => ⟨x.1, x.2⟩) (fun x => ⟨x.1, x.2⟩)
          | ok t =>
              rw [h4, except_bind_ok] at hdec
              simp at hdec

/-- Witness for `order_created_decode_validation`: a body carrying only
`order_id` (so `product_id` is missing) fails to decode, and the error it
fails with names a field that is genuinely missing. -/
theorem order_created_decode_validation_witness :
    ∃ err, OrderCreatedEvent.from_json
      (.obj [("order_id", Json.num ((7 : Int) : ℚ))]) = .error err :=
  order_created_decode_validation.1 [("order_id", Json.num ((7 : Int) : ℚ))]
    (Or.inr (Or.inl rfl))

/-- C7 counterexample: decoding does silently coerce a type mismatch — a
JSON body whose `quantity` is the string `"5"` decodes successfully to an
`OrderCreatedEvent` with integer quantity `5` (Pydantic lax mode), instead
of failing with a `ValidationError`. -/
theorem decode_coerces_numeric_string :
    OrderCreatedEvent.from_json (Json.obj
      [("order_id", Json.num ((1 : Int) : ℚ)),
       ("product_id", Json.num ((2 : Int) : ℚ)),
       ("quantity", Json.str "5"),
       ("timestamp", Json.str "2025-01-01T12:00:00")]) =
      .ok ⟨1, 2, 5, ⟨2025, 1, 1, 12, 0, 0, 0⟩⟩ := by
  rfl

end MicroPatterns

